import Mathlib

/-!
Verification of the resultjs library (a TypeScript Result/AsyncResult
container) against its natural-language specification.

Shallow embedding conventions
=============================

The library manipulates dynamically-typed JavaScript values, so the
embedding works over an inductive universe `JSVal` of the runtime shapes
that the library's dispatch code distinguishes:

* `undefinedV`, `num`, `str` — primitive values.  Primitives are not
  `instanceof Object`, so both `isThenable` and `isIterable` are false on
  them (this matches `src/src/internal/helpers.ts`, which guards with
  `value instanceof Object`).
* `arr` — an array: an object that is iterable but has no `then`.
* `okV` / `errV` — instances of `OkResult` / `ErrorResult`
  (`src/src/impls/ok.ts`, `src/src/impls/error.ts`).  Both classes define
  `[Symbol.iterator]`, so they are iterable objects; neither has a `then`
  method, so they are not thenable.
* `rpOk v` / `rpErr e` / `rpFault r` — a `ResultPromise`
  (`src/src/impls/promise.ts`) whose underlying promise has settled.  The
  `ResultPromise` constructor wraps its executor so that fulfilment always
  carries a `Result` (`resolve(new Result.Ok(v))` / `resolve(new
  Result.Error(e))`) and rejection carries the fault reason; the three
  constructors enumerate exactly those three terminal states.
* `thF x` / `thR x` — a generic foreign thenable (an object with a
  callable `then` that is not a `ResultPromise`), which when subscribed
  calls its fulfilment continuation with `x`, resp. its rejection
  continuation with `x`.

Promises are modelled by their terminal observation.  The derived promise
built by a combinator is described by an `Outcome`:

* `Outcome.ok v`    — the executor's `resolve` was called with `v`: the
  promise settles normally carrying `Result.Ok v` (settle-success).
* `Outcome.err e`   — the executor's `reject` was called with `e`: the
  promise settles normally carrying `Result.Error e` (settle-failure).
* `Outcome.fault r` — the executor's `catcher` (the underlying promise
  rejection) was called with `r`: the promise completes abnormally.
* `Outcome.pending` — none of the three capabilities is ever invoked: the
  derived promise never settles.

Continuation handlers passed to the asynchronous combinators may raise
synchronously; a handler is therefore embedded as
`JSVal → Except JSVal JSVal`, where `Except.error r` means the handler
raised `r` and `Except.ok v` means it returned `v`.

For the synchronous combinators the specification asserts that the
continuation is *never invoked* on the non-applicable branch, so the
synchronous methods are embedded in an instrumented form returning
`JSVal × List JSVal`: the second component is the list of arguments on
which the continuation was invoked, in call order.  A method arm that in
the source returns without calling the continuation (`return this`) has
trace `[]`; an arm `return new OkResult(fn(this.value))` has trace
`[this.value]`.
-/

/-- Universe of JavaScript runtime values distinguished by the library's
dynamic dispatch (see the module docstring for the reading of each
constructor). -/
inductive JSVal where
  | undefinedV : JSVal
  | num : Int → JSVal
  | str : String → JSVal
  | arr : List JSVal → JSVal
  | okV : JSVal → JSVal
  | errV : JSVal → JSVal
  | rpOk : JSVal → JSVal
  | rpErr : JSVal → JSVal
  | rpFault : JSVal → JSVal
  | thF : JSVal → JSVal
  | thR : JSVal → JSVal

/-- Terminal observation of a derived `ResultPromise`: which of the three
executor capabilities (settle-success / settle-failure / fault) ends up
being invoked, or none at all (`pending`). -/
inductive Outcome where
  | ok : JSVal → Outcome
  | err : JSVal → Outcome
  | fault : JSVal → Outcome
  | pending : Outcome

/-- `isThenable` (src/unnamed/part_000, lines 7-10):
`value instanceof Object && value.then instanceof Function`.
`ResultPromise` instances inherit (and override) `then`; the generic
thenables `thF`/`thR` carry a callable `then` by definition.  Primitives
are not objects; arrays and `OkResult`/`ErrorResult` instances are objects
without a `then` property. -/
def isThenable : JSVal → Bool
  | .rpOk _ | .rpErr _ | .rpFault _ | .thF _ | .thR _ => true
  | _ => false

/-- `isIterable` (src/unnamed/part_000, lines 18-21):
`value instanceof Object && value[Symbol.iterator] instanceof Function`.
Arrays are iterable; `OkResult` and `ErrorResult` both define
`[Symbol.iterator]` (ok.ts line 24, error.ts line 23), so Result
instances are themselves iterable objects.  Promises and the generic
thenables have no `Symbol.iterator`. -/
def isIterable : JSVal → Bool
  | .arr _ | .okV _ | .errV _ => true
  | _ => false

/-- `Result.is` (src/src/functions.ts, lines 137-139):
`result instanceof OkResult || result instanceof ErrorResult`. -/
def resultIs : JSVal → Bool
  | .okV _ | .errV _ => true
  | _ => false

/-- `value instanceof Result.Promise` (the check inside
`handleValueResolution`, src/src/impls/promise.ts line 176). -/
def isResultPromise : JSVal → Bool
  | .rpOk _ | .rpErr _ | .rpFault _ => true
  | _ => false

/-- Truthiness of the `ok` field access `result.ok` as used by the free
functions `and`/`or`/`flatten` (src/src/functions.ts).  On an `OkResult`
the field is `true`; on an `ErrorResult` it is `false`; on any other value
the property access yields `undefined`, which is falsy. -/
def jsOkField : JSVal → Bool
  | .okV _ => true
  | _ => false

/-- `handleValueResolution` (src/src/impls/promise.ts, lines 169-193),
the value-resolution algorithm, with one arm per runtime shape:

* `isThenable value` and `value instanceof Result.Promise` (lines
  175-182): `value.then(result => result.ok ? resolver(result.value) :
  rejecter(result.error), catcher)` — a `ResultPromise` fulfils with a
  `Result`, so its settled `Ok`/`Error` payload is spliced into
  settle-success/settle-failure and its rejection into the fault channel.
* `isThenable value`, not a `ResultPromise` (line 183):
  `value.then(resolver, catcher)` — normal completion into
  settle-success, rejection into the fault channel.
* `Result.is value` (lines 186-190): `value.ok ? resolver(value.value) :
  rejecter(value.error)`.
* otherwise (line 192): `resolver(value)` — plain success payload. -/
def handleValueResolution : JSVal → Outcome
  | .rpOk v => .ok v
  | .rpErr e => .err e
  | .rpFault r => .fault r
  | .thF x => .ok x
  | .thR r => .fault r
  | .okV v => .ok v
  | .errV e => .err e
  | v => .ok v

/-- A continuation handler that may raise synchronously: `Except.error r`
models `throw r`, `Except.ok v` models `return v`. -/
def Handler : Type := JSVal → Except JSVal JSVal

/-- `ResultPromise.then` (src/src/impls/promise.ts, lines 48-83), as a
function from the source promise's terminal observation and the two
optional handlers to the derived promise's terminal observation.

The executor runs `super.then(onFulfilledWrapper, onthrow ? onThrowWrapper
: catcher)`:

* Source settled (fulfilled with a `Result`): with no `onresult`, the
  pass-through `result.ok ? resolve(result.value) : reject(result.error)`
  runs (lines 55-58).  With `onresult`, `value = onresult(result)` is
  wrapped in try/catch — a synchronous raise goes to `catcher` (lines
  62-66) — and a returned value goes through `handleValueResolution`
  wired to the derived promise's capabilities (line 68).  The handler
  receives the `Result` instance itself (`okV`/`errV`).
* Source faulted (rejected): with no `onthrow` the second argument is
  `catcher` itself, so the fault propagates unchanged (line 81); with
  `onthrow`, its raise goes to `catcher` and its return value through
  `handleValueResolution` (lines 71-80). -/
def ResultPromise.thenC (src : Outcome) (onresult onthrow : Option Handler) : Outcome :=
  match src with
  | .pending => .pending
  | .ok v =>
    match onresult with
    | none => .ok v
    | some f =>
      match f (.okV v) with
      | .error r => .fault r
      | .ok value => handleValueResolution value
  | .err e =>
    match onresult with
    | none => .err e
    | some f =>
      match f (.errV e) with
      | .error r => .fault r
      | .ok value => handleValueResolution value
  | .fault reason =>
    match onthrow with
    | none => .fault reason
    | some g =>
      match g reason with
      | .error r => .fault r
      | .ok value => handleValueResolution value

/-- `ResultPromise.catch` (src/src/impls/promise.ts, lines 85-104).

With no handler, `return this` (settlement unchanged).  With a handler,
the derived promise's executor runs `super.catch(wrapper)`;
`Promise.prototype.catch` dispatches to the *overridden* `then` of the
receiver with arguments `(undefined, wrapper)`, so:

* if the source settles (normally, with a `Result`), the overridden
  `then`'s no-`onresult` pass-through settles only the *inner* promise
  created by that `then` call — the wrapper never runs, and none of the
  derived promise's `resolve`/`reject`/`catcher` capabilities is ever
  invoked: the derived promise never settles (`pending`);
* if the source faults, the wrapper runs: a synchronous raise of the
  handler goes to the derived `catcher` (lines 98-100) and a returned
  value through `handleValueResolution` (line 102). -/
def ResultPromise.catchC (src : Outcome) (onthrow : Option Handler) : Outcome :=
  match onthrow with
  | none => src
  | some g =>
    match src with
    | .pending => .pending
    | .ok _ => .pending
    | .err _ => .pending
    | .fault reason =>
      match g reason with
      | .error r => .fault r
      | .ok value => handleValueResolution value

/-- `ResultPromise.map` (src/src/impls/promise.ts, lines 106-119).

The derived promise's executor runs `void this.then(cb)` where `cb` is
`result => { if (!result.ok) return reject(result.error); const value =
fn(result.value); handleValueResolution(value, resolve, reject, catcher) }`
— note `this.then` is the overridden `then`, its returned promise is
discarded, and `fn` is *not* wrapped in try/catch inside `cb`:

* source faulted: the overridden `then` (called with no `onthrow`) routes
  the fault to the *discarded* inner promise's catcher; the derived
  promise's capabilities are never invoked (`pending`);
* source settled `Error e`: `reject(e)` — derived settle-failure;
* source settled `Ok v`: `fn v` runs; if it raises, the raise escapes
  `cb` and is caught by the overridden `then`'s try/catch, which routes
  it to the *discarded* inner promise's catcher (`pending` for the
  derived promise); if it returns, the value goes through
  `handleValueResolution` wired to the derived promise's capabilities. -/
def ResultPromise.map (src : Outcome) (fn : Handler) : Outcome :=
  match src with
  | .pending => .pending
  | .fault _ => .pending
  | .err e => .err e
  | .ok v =>
    match fn v with
    | .error _ => .pending
    | .ok value => handleValueResolution value

/-- `ResultPromise.mapOrElse` (src/src/impls/promise.ts, lines 121-136):
same shape as `map`, but on a settled `Error e` it runs
`defaultValue(e)` instead of rejecting, with the same (absent) try/catch
and the same discarded inner promise. -/
def ResultPromise.mapOrElse (src : Outcome) (defaultValue fn : Handler) : Outcome :=
  match src with
  | .pending => .pending
  | .fault _ => .pending
  | .err e =>
    match defaultValue e with
    | .error _ => .pending
    | .ok value => handleValueResolution value
  | .ok v =>
    match fn v with
    | .error _ => .pending
    | .ok value => handleValueResolution value

/-- `ResultPromise.andThen` (src/src/impls/promise.ts, lines 138-151):
the implementation body is identical to `map`'s. -/
def ResultPromise.andThen (src : Outcome) (fn : Handler) : Outcome :=
  match src with
  | .pending => .pending
  | .fault _ => .pending
  | .err e => .err e
  | .ok v =>
    match fn v with
    | .error _ => .pending
    | .ok value => handleValueResolution value

/-- `ResultPromise.orElse` (src/src/impls/promise.ts, lines 153-166):
dual of `andThen` — a settled `Ok v` passes through via
`resolve(result.value)`; a settled `Error e` runs `fn e` (no try/catch,
inner promise discarded, as in `map`). -/
def ResultPromise.orElse (src : Outcome) (fn : Handler) : Outcome :=
  match src with
  | .pending => .pending
  | .fault _ => .pending
  | .ok v => .ok v
  | .err e =>
    match fn e with
    | .error _ => .pending
    | .ok value => handleValueResolution value

/-- Terminal observation of a foreign (non-Result) future: it either
fulfils normally with a value or rejects with a reason. -/
inductive Foreign where
  | fulfilled : JSVal → Foreign
  | rejected : JSVal → Foreign

/-- `ResultPromise.from` (src/src/impls/promise.ts, lines 15-24), applied
to a foreign future: `new Result.Promise((resolve, reject) => void
promise.then(resolve, reject))`.  The adapted future's normal completion
is wired to the executor's `resolve` (settle-success) and its rejection
to the executor's `reject` (settle-failure) — not to the fault channel. -/
def ResultPromise.fromForeign : Foreign → Outcome
  | .fulfilled x => .ok x
  | .rejected r => .err r

/-- `ResultPromise.from` applied to a function: `functionOrPromise
instanceof Function ? functionOrPromise(...args) : functionOrPromise`
(lines 18-20) — the function is invoked to obtain the foreign future,
which is then adapted identically. -/
def ResultPromise.fromFn (fn : Unit → Foreign) : Outcome :=
  ResultPromise.fromForeign (fn ())

/-- `ResultPromise.error` (src/src/impls/promise.ts, lines 11-13):
`new Result.Promise((_, reject) => reject(error))` — the executor's
`reject` is the settle-failure capability, so the promise is settled as
`Failure error` in the Settled channel. -/
def ResultPromise.error (e : JSVal) : Outcome := .err e

/-- `OkResult.map` (src/src/impls/ok.ts, lines 57-59):
`return new OkResult(fn(this.value))` — invokes `fn` once on the value. -/
def OkResult.map (v : JSVal) (fn : JSVal → JSVal) : JSVal × List JSVal :=
  (.okV (fn v), [v])

/-- `ErrorResult.map` (src/src/impls/error.ts, lines 39-41):
`return this` — the continuation is never invoked. -/
def ErrorResult.map (e : JSVal) (_fn : JSVal → JSVal) : JSVal × List JSVal :=
  (.errV e, [])

/-- `OkResult.mapErr` (src/src/impls/ok.ts, lines 91-93): `return this`
— the method does not even declare the continuation parameter. -/
def OkResult.mapErr (v : JSVal) (_fn : JSVal → JSVal) : JSVal × List JSVal :=
  (.okV v, [])

/-- `ErrorResult.mapErr` (src/src/impls/error.ts, lines 66-68):
`return new Result.Error(fn(this.error))`. -/
def ErrorResult.mapErr (e : JSVal) (fn : JSVal → JSVal) : JSVal × List JSVal :=
  (.errV (fn e), [e])

/-- `OkResult.andThen` (src/src/impls/ok.ts, lines 153-155):
`return fn(this.value)`. -/
def OkResult.andThen (v : JSVal) (fn : JSVal → JSVal) : JSVal × List JSVal :=
  (fn v, [v])

/-- `ErrorResult.andThen` (src/src/impls/error.ts, lines 119-121):
`return this` — the continuation is never invoked. -/
def ErrorResult.andThen (e : JSVal) (_fn : JSVal → JSVal) : JSVal × List JSVal :=
  (.errV e, [])

/-- `OkResult.or` (src/src/impls/ok.ts, lines 173-175): `return this` —
the alternative argument is ignored (not even declared). -/
def OkResult.or (v _other : JSVal) : JSVal :=
  .okV v

/-- `ErrorResult.or` (src/src/impls/error.ts, lines 127-129):
`return result`. -/
def ErrorResult.or (_e other : JSVal) : JSVal :=
  other

/-- `OkResult.orElse` (src/src/impls/ok.ts, lines 177-179): `return this`
— the continuation is never invoked. -/
def OkResult.orElse (v : JSVal) (_fn : JSVal → JSVal) : JSVal × List JSVal :=
  (.okV v, [])

/-- `ErrorResult.orElse` (src/src/impls/error.ts, lines 131-133):
`return fn(this.error)`. -/
def ErrorResult.orElse (e : JSVal) (fn : JSVal → JSVal) : JSVal × List JSVal :=
  (fn e, [e])

/-- `ErrorResult.mapAsync` (src/src/impls/error.ts, lines 43-45):
`return ResultPromise.error(this.error)` — the method declares no
continuation parameter, so the continuation passed by a caller is ignored
(trace `[]`), and the returned `AsyncResult` is already settled as a
typed `Failure` via `ResultPromise.error`. -/
def ErrorResult.mapAsync (e : JSVal) (_fn : JSVal → JSVal) : Outcome × List JSVal :=
  (ResultPromise.error e, [])

/-- `ErrorResult.andThenAsync` (src/src/impls/error.ts, lines 123-125):
`return Result.Promise.error(this.error)` — same shape as `mapAsync`. -/
def ErrorResult.andThenAsync (e : JSVal) (_fn : JSVal → JSVal) : Outcome × List JSVal :=
  (ResultPromise.error e, [])

/-- The element sequence produced by iterating a JavaScript value `v`
(the effect of `for (const x of v)` on the shapes in `JSVal`):

* an array yields its elements;
* an `OkResult` — `OkResult[Symbol.iterator]` (src/src/impls/ok.ts,
  lines 24-45) — returns `this.value[Symbol.iterator]()` when the value
  is iterable (one level of unwrap, hence the recursive call), else a
  fresh single-element iterator over the value;
* an `ErrorResult` — `ErrorResult[Symbol.iterator]`
  (src/src/impls/error.ts, lines 23-27) — is immediately done;
* other shapes are not iterable (empty by convention; the library never
  iterates them). -/
def iterElems : JSVal → List JSVal
  | .arr l => l
  | .okV v => if isIterable v then iterElems v else [v]
  | .errV _ => []
  | _ => []

/-- `OkResult.values` (src/src/impls/ok.ts, lines 105-112): a generator
that, when the value is iterable, executes
`return this.value[Symbol.iterator]()` — a generator `return` ends the
generator without yielding anything (the inner iterator becomes the
generator's return value, which `for..of`/spreading ignores) — and
otherwise executes `yield this.value`.  The list is the sequence of
*yielded* elements. -/
def OkResult.values (v : JSVal) : List JSVal :=
  if isIterable v then [] else [v]

/-- `ErrorResult.values` (src/src/impls/error.ts, lines 81-83): a
generator that returns immediately, yielding nothing. -/
def ErrorResult.values (_e : JSVal) : List JSVal :=
  []

/-- `ok()` with no argument (src/src/functions.ts, lines 30-34):
`new OkResult(undefined)`. -/
def okEmpty : JSVal := .okV .undefinedV

/-- The `for (const result of results) { if (!result.ok) return result }`
loop of the free function `and` (src/src/functions.ts, lines 233-237):
the first element whose `ok` field is falsy, if any. -/
def andLoop : List JSVal → Option JSVal
  | [] => none
  | r :: rs => if jsOkField r = false then some r else andLoop rs

/-- Free function `and` (src/src/functions.ts, lines 226-240): empty
array returns `ok()`; otherwise the first element with a falsy `ok`
field, else `results[results.length - 1]`.  (`getLastD` is only reached
on a non-empty list, so its default is irrelevant.) -/
def Fns.and (results : List JSVal) : JSVal :=
  if results.length = 0 then okEmpty
  else
    match andLoop results with
    | some r => r
    | none => results.getLastD .undefinedV

/-- The `for (const result of results) { if (result.ok) return result }`
loop of the free function `or` (src/src/functions.ts, lines 285-289). -/
def orLoop : List JSVal → Option JSVal
  | [] => none
  | r :: rs => if jsOkField r = true then some r else orLoop rs

/-- Free function `or` (src/src/functions.ts, lines 278-292): empty array
returns `ok()`; otherwise the first element with a truthy `ok` field,
else the last element. -/
def Fns.or (results : List JSVal) : JSVal :=
  if results.length = 0 then okEmpty
  else
    match orLoop results with
    | some r => r
    | none => results.getLastD .undefinedV

/-- Free function `flatten` (src/src/functions.ts, lines 343-349):
`if (result.ok) return result.value; return result`. -/
def Fns.flatten (result : JSVal) : JSVal :=
  if jsOkField result = true then
    match result with
    | .okV v => v
    | r => r
  else result

/-- `OkResult.flatten` (src/src/impls/ok.ts, lines 189-193):
`Result.is(this.value) ? this.value : this`. -/
def OkResult.flatten (v : JSVal) : JSVal :=
  if resultIs v then v else .okV v

/-- `ErrorResult.flatten` (src/src/impls/error.ts, lines 155-157):
`return this`. -/
def ErrorResult.flatten (e : JSVal) : JSVal :=
  .errV e

/-- A value is never equal to a strictly larger term built from it
(`rpOk` wrapper): used to show a thenable is never delivered unchanged. -/
theorem ne_rpOk_self (x : JSVal) : x ≠ JSVal.rpOk x := by
  intro h
  have h2 : sizeOf x = sizeOf (JSVal.rpOk x) := congrArg sizeOf h
  simp at h2

/-- Same for the generic-thenable wrapper `thF`. -/
theorem ne_thF_self (x : JSVal) : x ≠ JSVal.thF x := by
  intro h
  have h2 : sizeOf x = sizeOf (JSVal.thF x) := congrArg sizeOf h
  simp at h2

/-- The `and` loop skips every element with a truthy `ok` field and stops
at the first Failure that follows them. -/
theorem andLoop_append_err (l1 : List JSVal) (e : JSVal) (l2 : List JSVal)
    (h : ∀ x ∈ l1, jsOkField x = true) :
    andLoop (l1 ++ JSVal.errV e :: l2) = some (JSVal.errV e) := by
  induction l1 with
  | nil => simp [andLoop, jsOkField]
  | cons x xs ih =>
    have hx : jsOkField x = true := h x (by simp)
    simp only [List.cons_append, andLoop, hx]
    simp only [Bool.true_eq_false, if_false]
    exact ih (fun y hy => h y (by simp [hy]))

/-- The `and` loop finds nothing on a list of Successes. -/
theorem andLoop_all_ok (l : List JSVal) (h : ∀ x ∈ l, jsOkField x = true) :
    andLoop l = none := by
  induction l with
  | nil => rfl
  | cons x xs ih =>
    have hx : jsOkField x = true := h x (by simp)
    simp only [andLoop, hx, Bool.true_eq_false, if_false]
    exact ih (fun y hy => h y (by simp [hy]))

/-- The `or` loop skips every element with a falsy `ok` field and stops
at the first Success that follows them. -/
theorem orLoop_append_ok (l1 : List JSVal) (v : JSVal) (l2 : List JSVal)
    (h : ∀ x ∈ l1, jsOkField x = false) :
    orLoop (l1 ++ JSVal.okV v :: l2) = some (JSVal.okV v) := by
  induction l1 with
  | nil => simp [orLoop, jsOkField]
  | cons x xs ih =>
    have hx : jsOkField x = false := h x (by simp)
    simp only [List.cons_append, orLoop, hx]
    simp only [Bool.false_eq_true, if_false]
    exact ih (fun y hy => h y (by simp [hy]))

/-- The `or` loop finds nothing on a list of Failures. -/
theorem orLoop_all_err (l : List JSVal) (h : ∀ x ∈ l, jsOkField x = false) :
    orLoop l = none := by
  induction l with
  | nil => rfl
  | cons x xs ih =>
    have hx : jsOkField x = false := h x (by simp)
    simp only [orLoop, hx, Bool.false_eq_true, if_false]
    exact ih (fun y hy => h y (by simp [hy]))

/-- C1: For every value v returned by a continuation handler passed to an
AsyncResult combinator (then, catch, map, mapOrElse, andThen, orElse),
the value-resolution algorithm routes v as follows: a `ResultPromise`'s
settled Success/Failure outcome is spliced into settle-success /
settle-failure and its fault into the fault channel; a generic thenable's
normal completion goes to settle-success and its rejection to the fault
channel (not settle-failure); a Result value routes its value to
settle-success (Success) or its error to settle-failure (Failure); any
other value is delivered to settle-success as a plain payload.  Each
combinator funnels a handler's returned value through this algorithm
wired to its own derived future. -/
theorem value_resolution_routes_handler_returns :
    (∀ v, handleValueResolution (JSVal.rpOk v) = Outcome.ok v)
  ∧ (∀ e, handleValueResolution (JSVal.rpErr e) = Outcome.err e)
  ∧ (∀ r, handleValueResolution (JSVal.rpFault r) = Outcome.fault r)
  ∧ (∀ x, handleValueResolution (JSVal.thF x) = Outcome.ok x)
  ∧ (∀ r, handleValueResolution (JSVal.thR r) = Outcome.fault r
        ∧ handleValueResolution (JSVal.thR r) ≠ Outcome.err r)
  ∧ (∀ v, handleValueResolution (JSVal.okV v) = Outcome.ok v)
  ∧ (∀ e, handleValueResolution (JSVal.errV e) = Outcome.err e)
  ∧ (∀ v, isThenable v = false → resultIs v = false →
        handleValueResolution v = Outcome.ok v)
  ∧ (∀ u v, ResultPromise.thenC (Outcome.ok u)
        (some fun _ => Except.ok v) none = handleValueResolution v)
  ∧ (∀ r v, ResultPromise.thenC (Outcome.fault r) none
        (some fun _ => Except.ok v) = handleValueResolution v)
  ∧ (∀ r v, ResultPromise.catchC (Outcome.fault r)
        (some fun _ => Except.ok v) = handleValueResolution v)
  ∧ (∀ u v (fn : Handler), fn u = Except.ok v →
        ResultPromise.map (Outcome.ok u) fn = handleValueResolution v)
  ∧ (∀ u v (fn d : Handler), fn u = Except.ok v →
        ResultPromise.mapOrElse (Outcome.ok u) d fn = handleValueResolution v)
  ∧ (∀ e v (fn d : Handler), d e = Except.ok v →
        ResultPromise.mapOrElse (Outcome.err e) d fn = handleValueResolution v)
  ∧ (∀ u v (fn : Handler), fn u = Except.ok v →
        ResultPromise.andThen (Outcome.ok u) fn = handleValueResolution v)
  ∧ (∀ e v (fn : Handler), fn e = Except.ok v →
        ResultPromise.orElse (Outcome.err e) fn = handleValueResolution v) := by
  refine ⟨fun v => rfl, fun e => rfl, fun r => rfl, fun x => rfl,
    fun r => ⟨rfl, by simp [handleValueResolution]⟩, fun v => rfl, fun e => rfl,
    ?_, fun u v => rfl, fun r v => rfl, fun r v => rfl, ?_, ?_, ?_, ?_, ?_⟩
  · intro v h1 h2
    cases v <;> simp_all [isThenable, resultIs, handleValueResolution]
  · intro u v fn h
    simp [ResultPromise.map, h]
  · intro u v fn d h
    simp [ResultPromise.mapOrElse, h]
  · intro e v fn d h
    simp [ResultPromise.mapOrElse, h]
  · intro u v fn h
    simp [ResultPromise.andThen, h]
  · intro e v fn h
    simp [ResultPromise.orElse, h]

/-- C1 witness: the routing theorem applied at concrete inputs — a plain
number is delivered to settle-success unchanged, and an `andThen` handler
returning a `Failure` Result settles the derived future as that typed
failure. -/
theorem value_resolution_routes_handler_returns_witness :
    handleValueResolution (JSVal.num 7) = Outcome.ok (JSVal.num 7)
  ∧ ResultPromise.andThen (Outcome.ok (JSVal.num 2))
      (fun _ => Except.ok (JSVal.errV (JSVal.str "bad")))
      = Outcome.err (JSVal.str "bad") := by
  obtain ⟨-, -, -, -, -, -, -, h8, -, -, -, -, -, -, h15, -⟩ :=
    value_resolution_routes_handler_returns
  exact ⟨h8 (JSVal.num 7) rfl rfl,
    (h15 (JSVal.num 2) (JSVal.errV (JSVal.str "bad")) _ rfl).trans rfl⟩

/-- C2 (failing-input evaluation): the claim says a synchronously raised
handler value always reaches the derived future's fault channel.  That
holds for `then` and `catch` (last two conjuncts), but for `map`,
`mapOrElse`, `andThen` and `orElse` the handler runs inside a callback
handed to `this.then(...)` whose returned promise is discarded and whose
try/catch routes the raise to that discarded promise's catcher — so the
future these combinators return never settles at all (`pending`), and
the raised value never reaches its fault channel. -/
theorem mapfamily_sync_raise_never_settles_derived :
    ResultPromise.andThen (Outcome.ok (JSVal.num 2))
      (fun _ => Except.error (JSVal.str "x")) = Outcome.pending
  ∧ ResultPromise.map (Outcome.ok (JSVal.num 2))
      (fun _ => Except.error (JSVal.str "x")) = Outcome.pending
  ∧ ResultPromise.mapOrElse (Outcome.ok (JSVal.num 2))
      (fun _ => Except.ok JSVal.undefinedV)
      (fun _ => Except.error (JSVal.str "x")) = Outcome.pending
  ∧ ResultPromise.mapOrElse (Outcome.err (JSVal.str "e"))
      (fun _ => Except.error (JSVal.str "x"))
      (fun _ => Except.ok JSVal.undefinedV) = Outcome.pending
  ∧ ResultPromise.orElse (Outcome.err (JSVal.str "e"))
      (fun _ => Except.error (JSVal.str "x")) = Outcome.pending
  ∧ ResultPromise.thenC (Outcome.ok (JSVal.num 2))
      (some fun _ => Except.error (JSVal.str "x")) none
      = Outcome.fault (JSVal.str "x")
  ∧ ResultPromise.catchC (Outcome.fault (JSVal.num 0))
      (some fun _ => Except.error (JSVal.str "x"))
      = Outcome.fault (JSVal.str "x") :=
  ⟨rfl, rfl, rfl, rfl, rfl, rfl, rfl⟩

/-- C3: a foreign future adapted by `AsyncResult.from` settles the
AsyncResult as Success(x) on normal completion with x and as Failure(r)
— a typed error in the Settled channel, not a fault — on rejection with
r; a function argument is invoked to obtain the future, which is adapted
identically. -/
theorem from_reinterprets_rejection_as_typed_failure :
    (∀ x, ResultPromise.fromForeign (Foreign.fulfilled x) = Outcome.ok x)
  ∧ (∀ r, ResultPromise.fromForeign (Foreign.rejected r) = Outcome.err r)
  ∧ (∀ r, ResultPromise.fromForeign (Foreign.rejected r) ≠ Outcome.fault r)
  ∧ (∀ g, ResultPromise.fromFn g = ResultPromise.fromForeign (g ())) := by
  refine ⟨fun x => rfl, fun r => rfl, ?_, fun g => rfl⟩
  intro r
  simp [ResultPromise.fromForeign]

/-- C4: `then` with no on-settled handler passes a settled Success
through to settle-success and a settled Failure through to
settle-failure (whatever the on-fault handler); with no on-fault handler
a source fault propagates to the derived future's fault channel
unchanged (whatever the on-settled handler). -/
theorem then_passthrough_without_handlers :
    (∀ v (ot : Option Handler),
        ResultPromise.thenC (Outcome.ok v) none ot = Outcome.ok v)
  ∧ (∀ e (ot : Option Handler),
        ResultPromise.thenC (Outcome.err e) none ot = Outcome.err e)
  ∧ (∀ r (ors : Option Handler),
        ResultPromise.thenC (Outcome.fault r) ors none = Outcome.fault r) :=
  ⟨fun _ _ => rfl, fun _ _ => rfl, fun _ _ => rfl⟩

/-- C5 (failing-input evaluation): iterating a Success via
`[Symbol.iterator]` yields the one-level unwrap the claim describes
(first three conjuncts), but the `values()` generator, on a Success
holding an iterable, *returns* the inner iterator instead of yielding
its elements, so `ok([1,2,3]).values()` yields the empty sequence, not
[1,2,3] (last conjunct). -/
theorem values_generator_yields_nothing_on_iterable :
    iterElems (JSVal.okV (JSVal.arr [JSVal.num 1, JSVal.num 2, JSVal.num 3]))
      = [JSVal.num 1, JSVal.num 2, JSVal.num 3]
  ∧ iterElems (JSVal.okV (JSVal.num 5)) = [JSVal.num 5]
  ∧ iterElems (JSVal.errV (JSVal.str "e")) = []
  ∧ OkResult.values (JSVal.arr [JSVal.num 1, JSVal.num 2, JSVal.num 3]) = []
  ∧ OkResult.values (JSVal.num 5) = [JSVal.num 5]
  ∧ ErrorResult.values (JSVal.str "e") = [] :=
  ⟨rfl, rfl, rfl, rfl, rfl, rfl⟩

/-- C6: short-circuiting combinators never invoke the continuation on
the non-applicable branch (empty invocation trace) and return the
receiver unchanged: `error(e).map(fn)` and `error(e).andThen(fn)` equal
`error(e)`; a Success's `mapErr`, `or` and `orElse` return the Success
unchanged. -/
theorem short_circuit_never_invokes_continuation :
    (∀ e (fn : JSVal → JSVal), ErrorResult.map e fn = (JSVal.errV e, []))
  ∧ (∀ e (fn : JSVal → JSVal), ErrorResult.andThen e fn = (JSVal.errV e, []))
  ∧ (∀ v (fn : JSVal → JSVal), OkResult.mapErr v fn = (JSVal.okV v, []))
  ∧ (∀ v other, OkResult.or v other = JSVal.okV v)
  ∧ (∀ v (fn : JSVal → JSVal), OkResult.orElse v fn = (JSVal.okV v, [])) :=
  ⟨fun _ _ => rfl, fun _ _ => rfl, fun _ _ => rfl,
    fun _ _ => rfl, fun _ _ => rfl⟩

/-- C7: over an ordered sequence of Results, `and` returns the first
Failure if one exists, otherwise the last element; `or` returns the
first Success if one exists, otherwise the last element; both return
`ok()` (a Success with no value) on the empty sequence. -/
theorem and_or_first_match_else_last :
    Fns.and [] = okEmpty
  ∧ Fns.or [] = okEmpty
  ∧ (∀ l1 e l2, (∀ x ∈ l1, ∃ v, x = JSVal.okV v) →
      Fns.and (l1 ++ JSVal.errV e :: l2) = JSVal.errV e)
  ∧ (∀ l : List JSVal, l ≠ [] → (∀ x ∈ l, ∃ v, x = JSVal.okV v) →
      Fns.and l = l.getLastD JSVal.undefinedV)
  ∧ (∀ l1 v l2, (∀ x ∈ l1, ∃ e, x = JSVal.errV e) →
      Fns.or (l1 ++ JSVal.okV v :: l2) = JSVal.okV v)
  ∧ (∀ l : List JSVal, l ≠ [] → (∀ x ∈ l, ∃ e, x = JSVal.errV e) →
      Fns.or l = l.getLastD JSVal.undefinedV) := by
  refine ⟨rfl, rfl, ?_, ?_, ?_, ?_⟩
  · intro l1 e l2 h
    have hok : ∀ x ∈ l1, jsOkField x = true := by
      intro x hx
      obtain ⟨v, rfl⟩ := h x hx
      rfl
    have hloop := andLoop_append_err l1 e l2 hok
    simp [Fns.and, hloop]
  · intro l hne h
    have hok : ∀ x ∈ l, jsOkField x = true := by
      intro x hx
      obtain ⟨v, rfl⟩ := h x hx
      rfl
    have hloop := andLoop_all_ok l hok
    have hlen : l.length ≠ 0 :=
      fun h0 => hne (List.length_eq_zero.mp h0)
    simp [Fns.and, hloop, hlen]
  · intro l1 v l2 h
    have herr : ∀ x ∈ l1, jsOkField x = false := by
      intro x hx
      obtain ⟨e, rfl⟩ := h x hx
      rfl
    have hloop := orLoop_append_ok l1 v l2 herr
    simp [Fns.or, hloop]
  · intro l hne h
    have herr : ∀ x ∈ l, jsOkField x = false := by
      intro x hx
      obtain ⟨e, rfl⟩ := h x hx
      rfl
    have hloop := orLoop_all_err l herr
    have hlen : l.length ≠ 0 :=
      fun h0 => hne (List.length_eq_zero.mp h0)
    simp [Fns.or, hloop, hlen]

/-- C7 witness: the theorem applied at the spec's own examples —
`and([ok(1), error("e"), ok(2)])` is `error("e")` and
`or([error("a"), error("b")])` is the last element `error("b")`. -/
theorem and_or_first_match_else_last_witness :
    Fns.and [JSVal.okV (JSVal.num 1), JSVal.errV (JSVal.str "e"),
      JSVal.okV (JSVal.num 2)] = JSVal.errV (JSVal.str "e")
  ∧ Fns.or [JSVal.errV (JSVal.str "a"), JSVal.errV (JSVal.str "b")]
      = JSVal.errV (JSVal.str "b") := by
  obtain ⟨-, -, h3, -, -, h6⟩ := and_or_first_match_else_last
  constructor
  · exact h3 [JSVal.okV (JSVal.num 1)] (JSVal.str "e")
      [JSVal.okV (JSVal.num 2)]
      (by intro x hx; simp at hx; exact ⟨_, hx⟩)
  · have := h6 [JSVal.errV (JSVal.str "a"), JSVal.errV (JSVal.str "b")]
      (by simp)
      (by intro x hx; simp at hx; rcases hx with h | h <;> exact ⟨_, h⟩)
    exact this.trans rfl

/-- C8: the free function `flatten` returns the inner Result as-is when
the outer is a Success (so `flatten(ok(ok(x))) = ok(x)` and
`flatten(ok(error(e))) = error(e)`) and returns the outer Failure
unchanged otherwise; the instance method `flatten` on a Success returns
the value itself when that value is a Result, else the Success
unchanged. -/
theorem flatten_unwraps_one_level :
    (∀ x, Fns.flatten (JSVal.okV (JSVal.okV x)) = JSVal.okV x)
  ∧ (∀ e, Fns.flatten (JSVal.okV (JSVal.errV e)) = JSVal.errV e)
  ∧ (∀ e, Fns.flatten (JSVal.errV e) = JSVal.errV e)
  ∧ (∀ inner, Fns.flatten (JSVal.okV inner) = inner)
  ∧ (∀ v, resultIs v = true → OkResult.flatten v = v)
  ∧ (∀ v, resultIs v = false → OkResult.flatten v = JSVal.okV v)
  ∧ (∀ e, ErrorResult.flatten e = JSVal.errV e) := by
  refine ⟨fun x => rfl, fun e => rfl, fun e => rfl, fun inner => rfl,
    ?_, ?_, fun e => rfl⟩
  · intro v h
    simp [OkResult.flatten, h]
  · intro v h
    simp [OkResult.flatten, h]

/-- C8 witness: the flatten theorem applied at concrete inputs for the
two hypothesis-guarded conjuncts — a Success holding a Result flattens
to that Result, a Success holding a plain number stays unchanged. -/
theorem flatten_unwraps_one_level_witness :
    OkResult.flatten (JSVal.errV (JSVal.str "e")) = JSVal.errV (JSVal.str "e")
  ∧ OkResult.flatten (JSVal.num 5) = JSVal.okV (JSVal.num 5) := by
  obtain ⟨-, -, -, -, h5, h6, -⟩ := flatten_unwraps_one_level
  exact ⟨h5 _ rfl, h6 _ rfl⟩

/-- C9: thenable detection is structural — every value whose runtime
shape carries a callable `then` (a `ResultPromise` or a generic
thenable) is treated as a future by the value-resolution algorithm: its
completion is spliced (a generic thenable's fulfilment to
settle-success, its rejection to the fault channel), and it is never
delivered unchanged to settle-success as a plain payload. -/
theorem thenable_never_delivered_as_payload (v : JSVal)
    (h : isThenable v = true) :
    handleValueResolution v ≠ Outcome.ok v
  ∧ (∀ x, v = JSVal.thF x → handleValueResolution v = Outcome.ok x)
  ∧ (∀ r, v = JSVal.thR r → handleValueResolution v = Outcome.fault r) := by
  refine ⟨?_, ?_, ?_⟩
  · cases v with
    | rpOk x =>
      intro heq
      simp only [handleValueResolution, Outcome.ok.injEq] at heq
      exact ne_rpOk_self x heq
    | thF x =>
      intro heq
      simp only [handleValueResolution, Outcome.ok.injEq] at heq
      exact ne_thF_self x heq
    | rpErr e => simp [handleValueResolution]
    | rpFault r => simp [handleValueResolution]
    | thR r => simp [handleValueResolution]
    | undefinedV => simp [isThenable] at h
    | num n => simp [isThenable] at h
    | str s => simp [isThenable] at h
    | arr l => simp [isThenable] at h
    | okV x => simp [isThenable] at h
    | errV x => simp [isThenable] at h
  · rintro x rfl
    rfl
  · rintro r rfl
    rfl

/-- C9 witness: applied to a concrete foreign thenable — an ordinary
object that merely has a `then` method fulfilling with 1: it is detected
as thenable, spliced to settle-success with 1, and not delivered as a
plain payload. -/
theorem thenable_never_delivered_as_payload_witness :
    isThenable (JSVal.thF (JSVal.num 1)) = true
  ∧ handleValueResolution (JSVal.thF (JSVal.num 1))
      ≠ Outcome.ok (JSVal.thF (JSVal.num 1))
  ∧ handleValueResolution (JSVal.thF (JSVal.num 1)) = Outcome.ok (JSVal.num 1) :=
  ⟨rfl, (thenable_never_delivered_as_payload (JSVal.thF (JSVal.num 1)) rfl).1,
    (thenable_never_delivered_as_payload (JSVal.thF (JSVal.num 1)) rfl).2.1
      (JSVal.num 1) rfl⟩

/-- C10: a Failure's asynchronous bridge combinators `mapAsync` and
`andThenAsync` never invoke their continuation (empty trace) and return
an AsyncResult already settled as Failure with the same error in the
Settled channel — not a fault. -/
theorem error_async_bridge_short_circuits :
    (∀ e (fn : JSVal → JSVal), ErrorResult.mapAsync e fn = (Outcome.err e, []))
  ∧ (∀ e (fn : JSVal → JSVal),
      ErrorResult.andThenAsync e fn = (Outcome.err e, []))
  ∧ (∀ e, Outcome.err e ≠ Outcome.fault e)
  ∧ (∀ e, ResultPromise.error e = Outcome.err e) := by
  refine ⟨fun _ _ => rfl, fun _ _ => rfl, ?_, fun _ => rfl⟩
  intro e
  simp
